import Mathlib

/-!
Shallow embedding of the order-fulfillment and delivery-dispatch core of the
cs160-project backend (FastAPI + SQLAlchemy), covering:

  * `app/cart.py`               — `calculate_cart_total`
  * `app/routers/payment.py`    — `confirm_payment`
  * `app/routers/orders.py`     — `cancel_order`
  * `app/routers/vehicle.py`    — the `/ws/deliver` dispatch loop and `order_route`

The database session is modelled as an explicit record of tables (lists of
rows); each endpoint is a pure function from the pre-state to the post-state
plus an HTTP-level outcome.  `db.commit()` points are irrelevant to the final
state of a completed call, so a call is a single state transformation; the
dispatch loop's suspension point (the awaited route-optimization call between
its read of PACKING orders and its batch write) is exposed by splitting it
into `dispatchSnapshot` and `dispatchWrite`, so that interleavings with
`cancel_order` can be expressed.

Machine integers: quantities, prices and weights are SQL `Integer` columns,
embedded as `Int` (they are far from any overflow boundary and SQLAlchemy
raises no wraparound).  Latitude/longitude are carried opaquely from the
request into the order row and never computed with, so they are embedded as
`Int` to keep every definition decidable.
-/

namespace Grocery

/-- `app/models.py` — `Item` (the columns read or written by the modelled
endpoints: id, name, price_cents, weight_oz, stock_qty; the catalog-only
columns such as category or image_url play no part in the claims). -/
structure Item where
  id : Nat
  name : String
  price_cents : Int
  weight_oz : Int
  stock_qty : Int
deriving DecidableEq

/-- `app/models.py` — `CartItem` (surrogate pk `id`, quantity, item_id, user_id). -/
structure CartItem where
  id : Nat
  quantity : Int
  item_id : Nat
  user_id : Nat
deriving DecidableEq

/-- `app/models.py` — `OrderStatus` enum: packing / shipped / delivered / canceled.
`PACKING` is what the spec calls AWAITING_DISPATCH. -/
inductive OrderStatus where
  | PACKING
  | SHIPPED
  | DELIVERED
  | CANCELED
deriving DecidableEq

/-- `app/models.py` — `Order`.  `canceled_at` is set by `cancel_order` on the
instance but is not a mapped column in `models.py` (a transient attribute);
it is kept here because the code writes and reads it within the request. -/
structure Order where
  id : Nat
  user_id : Nat
  payment_intent_id : Option String
  display_address : String
  latitude : Int
  longitude : Int
  status : OrderStatus
  polyline : Option String
  delivery_vehicle_id : Option Nat
  canceled_at : Option Nat
  delivered_at : Option Nat
deriving DecidableEq

/-- `app/models.py` — `OrderItem` (the surrogate pk is never read by the
modelled code, so it is omitted). -/
structure OrderItem where
  order_id : Nat
  item_id : Nat
  quantity : Int
deriving DecidableEq

/-- `app/models.py` — `DeliveryVehicleStatus` enum. -/
inductive DeliveryVehicleStatus where
  | READY
  | DELIVERING
  | RETURNING
deriving DecidableEq

/-- `app/models.py` — `DeliveryVehicle` (last position is unused by the
modelled dispatch code). -/
structure DeliveryVehicle where
  id : Nat
  secret_hash : String
  status : DeliveryVehicleStatus
deriving DecidableEq

/-- One row of `app/models.py` — `AuditLog`, reduced to the fields the claims
could observe (which audit action was recorded against which target). -/
structure AuditEntry where
  action_type : String
  target_id : Nat
deriving DecidableEq

/-- The database state touched by the modelled endpoints.  `nextOrderId` is
the autoincrement sequence behind `orders.id`; SQL sequences are not rolled
back, so a deleted order does not return its id. -/
structure DB where
  items : List Item
  cartItems : List CartItem
  orders : List Order
  orderItems : List OrderItem
  auditLogs : List AuditEntry
  nextOrderId : Nat
deriving DecidableEq

/-- `app/auth.py` — the authenticated user context used by the endpoints. -/
structure UserCtx where
  id : Nat
  email : String
  stripe_customer_id : String
deriving DecidableEq

/-- The Stripe `PaymentIntent` as read by `confirm_payment` (id, customer,
status); retrieval from Stripe is an external call, so the intent is an
input. -/
structure PaymentIntent where
  id : String
  customer : String
  status : String
deriving DecidableEq

/-- `app/schemas.py` — `ConfirmPaymentRequest` (intentId/clientSecret are
consumed by the external Stripe retrieval and are not needed here). -/
structure ConfirmPaymentRequest where
  displayAddress : String
  latitude : Int
  longitude : Int
deriving DecidableEq

/-- `app/schemas.py` — `ConfirmPaymentResponse`, whose single required
pydantic field is named `orderId`. -/
structure ConfirmPaymentResponse where
  orderId : Nat
deriving DecidableEq

/-- `app/schemas.py` — `OrderRouteResponse`. -/
structure OrderRouteResponse where
  polyline : Option String
deriving DecidableEq

/-- `app/schemas.py` — `CartItemOut`: a quantity plus the full item row. -/
structure CartItemOut where
  quantity : Int
  item : Item
deriving DecidableEq

/-- `app/schemas.py` — `OrderOut`, reduced to the fields the modelled code
computes (timestamps echo stored columns and are omitted). -/
structure OrderOut where
  id : Nat
  user_id : Nat
  total_cents : Int
  total_weight_oz : Int
  status : OrderStatus
  display_address : String
  items : List CartItemOut
deriving DecidableEq

/-- Pydantic model construction: `ConfirmPaymentResponse(**kwargs)` succeeds
only when the required field `orderId` is supplied; unknown keyword arguments
are ignored and a missing required field raises a validation error.  This
models pydantic's behaviour for the two construction sites in
`app/routers/payment.py` (line 39 passes `order_id=...`, line 134 passes
`orderId=...`). -/
def mkConfirmPaymentResponse (kwargs : List (String × Nat)) :
    Except String ConfirmPaymentResponse :=
  match kwargs.find? (fun kv => kv.fst == "orderId") with
  | some kv => .ok { orderId := kv.snd }
  | none => .error "Field required: orderId"

/-- HTTP-level failure outcomes of the modelled endpoints.  `http` carries the
status code and detail string verbatim; the two 400 details built from
f-strings in `payment.py` and `orders.py` are kept structured so that the
entity they name is visible: `insufficientStock` corresponds to
"Insufficient stock for (name). Available: (stock), Requested: (qty)",
`weightExceeded` to "Order weight exceeds 200lbs", and `cannotCancel` to
"Cannot cancel order with status (status)...". `validationFailure` is a
pydantic response-validation error escaping the handler. -/
inductive ApiError where
  | http (code : Nat) (detail : String)
  | insufficientStock (item_name : String) (available : Int) (requested : Int)
  | weightExceeded
  | cannotCancel (current : OrderStatus)
  | validationFailure (msg : String)
deriving DecidableEq

/-- `payment.py` line 33: `select(Order).where(Order.payment_intent_id == intent.id)`. -/
def findOrderByIntent (orders : List Order) (pid : String) : Option Order :=
  orders.find? (fun o => o.payment_intent_id == some pid)

/-- `db.query(CartItem, Item).join(Item).filter(CartItem.user_id == uid)`:
the user's cart rows, each inner-joined to its item row (a dangling item_id
drops the row, as an inner join does). -/
def cartRows (cartItems : List CartItem) (items : List Item) (uid : Nat) :
    List (CartItem × Item) :=
  (cartItems.filter (fun ci => ci.user_id == uid)).filterMap
    (fun ci => (items.find? (fun it => it.id == ci.item_id)).map (fun it => (ci, it)))

/-- `payment.py` lines 61-74, the first loop over the cart rows: accumulate
`accum_weight_oz` and fail on the first row with `ci.quantity > it.stock_qty`,
returning the f-string detail (structured here).  The weight of a row is added
before its stock check, exactly as in the source. -/
def stockCheckLoop : List (CartItem × Item) → Int → Except ApiError Int
  | [], acc => .ok acc
  | (ci, it) :: rest, acc =>
    let acc1 := acc + it.weight_oz * ci.quantity
    if ci.quantity > it.stock_qty then
      .error (.insufficientStock it.name it.stock_qty ci.quantity)
    else
      stockCheckLoop rest acc1

/-- `item.stock_qty += delta` on one row when its id matches. -/
def adjustOne (item_id : Nat) (delta : Int) (it : Item) : Item :=
  if it.id == item_id then { it with stock_qty := it.stock_qty + delta } else it

/-- `item.stock_qty += delta` applied to every row with the given id (ids are
a primary key, so at most one row matches in any reachable state). -/
def adjustStock (item_id : Nat) (delta : Int) (items : List Item) : List Item :=
  items.map (adjustOne item_id delta)

/-- A sequence of stock adjustments (item id, signed quantity), applied in
order: the shape shared by the decrements of `confirm_payment`'s fulfillment
loop and the increments of `cancel_order`'s restore loop. -/
def applyDeltas (ds : List (Nat × Int)) (items : List Item) : List Item :=
  ds.foldl (fun acc d => adjustStock d.1 d.2 acc) items

/-- `payment.py` lines 86-112, the second loop over the (previously
snapshotted) cart rows: insert one `OrderItem` per row, delete the cart row,
and decrement the item's stock by the cart quantity.  The audit-log detail
accumulation feeds only the audit record and is modelled by the single audit
entry appended by the caller. -/
def processRows (oid : Nat) : List (CartItem × Item) → DB → DB
  | [], db => db
  | (ci, it) :: rest, db =>
    processRows oid rest
      { db with
        orderItems := db.orderItems ++ [{ order_id := oid, item_id := it.id, quantity := ci.quantity }],
        cartItems := db.cartItems.filter (fun c => !(c.id == ci.id)),
        items := adjustStock it.id (-ci.quantity) db.items }

/-- The `Order(...)` constructed at `payment.py` lines 41-48 (status defaults
to PACKING per `models.py`), with the id the autoincrement sequence hands out
on commit. -/
def mkNewOrder (oid : Nat) (user : UserCtx) (intent : PaymentIntent)
    (payload : ConfirmPaymentRequest) : Order :=
  { id := oid
    user_id := user.id
    payment_intent_id := some intent.id
    display_address := payload.displayAddress
    latitude := payload.latitude
    longitude := payload.longitude
    status := .PACKING
    polyline := none
    delivery_vehicle_id := none
    canceled_at := none
    delivered_at := none }

/-- `app/routers/payment.py` — `confirm_payment`.  Returns the post-state of
the database together with the HTTP outcome.  Control flow follows the source
line by line: intent-ownership check (403), intent-status check (400),
duplicate-payment-reference lookup (early return of the existing id, built
with the keyword `order_id`), order insert + commit, cart snapshot, stock/weight
check loop, rollback `db.delete(order)` on insufficient stock, weight-limit
check (which performs no rollback), the per-row fulfillment loop, the audit
record, and the response built with the keyword `orderId`. -/
def confirm_payment (db : DB) (user : UserCtx) (intent : PaymentIntent)
    (payload : ConfirmPaymentRequest) : DB × Except ApiError ConfirmPaymentResponse :=
  if intent.customer ≠ user.stripe_customer_id then
    (db, .error (.http 403 "Unauthorized access to payment intent."))
  else if intent.status ≠ "succeeded" then
    (db, .error (.http 400 "Payment not successful."))
  else
    match findOrderByIntent db.orders intent.id with
    | some o =>
      match mkConfirmPaymentResponse [("order_id", o.id)] with
      | .ok r => (db, .ok r)
      | .error m => (db, .error (.validationFailure m))
    | none =>
      let oid := db.nextOrderId
      let order := mkNewOrder oid user intent payload
      let db1 : DB := { db with orders := db.orders ++ [order], nextOrderId := oid + 1 }
      let rows := cartRows db1.cartItems db1.items user.id
      match stockCheckLoop rows 0 with
      | .error e =>
        ({ db1 with orders := db1.orders.filter (fun o2 => !(o2.id == oid)) }, .error e)
      | .ok accum_weight_oz =>
        if accum_weight_oz > 200 * 16 then
          (db1, .error .weightExceeded)
        else
          let db2 := processRows oid rows db1
          let db3 := { db2 with auditLogs := db2.auditLogs ++ [{ action_type := "order_created", target_id := oid }] }
          match mkConfirmPaymentResponse [("orderId", oid)] with
          | .ok r => (db3, .ok r)
          | .error m => (db3, .error (.validationFailure m))

/-- `app/cart.py` — `CartPriceData`. -/
structure CartPriceData where
  total_item_cents : Int
  total_shipping_cents : Int
  total_weight_oz : Int
  shipping_waived : Bool
  total_cents : Int
deriving DecidableEq

/-- The item-price sum over cart lines (the fold at `cart.py` line 66). -/
def itemSumCents (l : List CartItemOut) : Int :=
  l.foldl (fun acc c => acc + c.item.price_cents * c.quantity) 0

/-- The weight sum over cart lines (the fold at `cart.py` line 67). -/
def itemWeightOz (l : List CartItemOut) : Int :=
  l.foldl (fun acc c => acc + c.item.weight_oz * c.quantity) 0

/-- `app/cart.py` — `calculate_cart_total`: a flat 1000-cent shipping fee is
always added into `total_cents`; `shipping_waived` is False when the weight
reaches 20 lb (320 oz) and True below. -/
def calculate_cart_total (cart_items : List CartItemOut) : CartPriceData :=
  let total_item_cents := itemSumCents cart_items
  let total_weight_oz := itemWeightOz cart_items
  let total_shipping_cents : Int := 1000
  let shipping_waived := if total_weight_oz ≥ 20 * 16 then false else true
  let total_cents := total_item_cents + total_shipping_cents
  { total_item_cents := total_item_cents
    total_shipping_cents := total_shipping_cents
    total_weight_oz := total_weight_oz
    shipping_waived := shipping_waived
    total_cents := total_cents }

/-- The user-visible total expression appearing verbatim at three sites:
`orders.py` line 53 (order listing), `orders.py` line 168 (cancellation
response) and `payment.py` line 186 (payment-intent display total):
`price_data.total_item_cents if price_data.shipping_waived else price_data.total_cents`. -/
def orderDisplayTotalCents (items : List CartItemOut) : Int :=
  let price_data := calculate_cart_total items
  if price_data.shipping_waived then price_data.total_item_cents else price_data.total_cents

/-- In-place mutation of a loaded order row, keyed by its primary key. -/
def updateOrderById (o1 : Order) (orders : List Order) : List Order :=
  orders.map (fun o => if o.id == o1.id then o1 else o)

/-- `db.query(OrderItem, Item).join(Item).filter(OrderItem.order_id == oid)`. -/
def orderItemRows (orderItems : List OrderItem) (items : List Item) (oid : Nat) :
    List (OrderItem × Item) :=
  (orderItems.filter (fun oi => oi.order_id == oid)).filterMap
    (fun oi => (items.find? (fun it => it.id == oi.item_id)).map (fun it => (oi, it)))

/-- `orders.py` lines 106-109: `item.stock_qty += oi.quantity` for each
joined row. -/
def restoreStock (rows : List (OrderItem × Item)) (items : List Item) : List Item :=
  rows.foldl (fun acc r => adjustStock r.2.id r.1.quantity acc) items

/-- `app/routers/orders.py` — `cancel_order`.  Loads the order filtered by
both id and owner (404 "Order not found" on no match), rejects any status
other than PACKING, then sets CANCELED + canceled_at, restores stock for each
order line, records the audit entry, and re-queries the lines to build the
`OrderOut` response with the shared display-total expression. -/
def cancel_order (db : DB) (order_id : Nat) (user : UserCtx) (now : Nat) :
    DB × Except ApiError OrderOut :=
  match db.orders.find? (fun o => o.id == order_id && o.user_id == user.id) with
  | none => (db, .error (.http 404 "Order not found"))
  | some order =>
    if order.status ≠ .PACKING then
      (db, .error (.cannotCancel order.status))
    else
      let order1 := { order with status := .CANCELED, canceled_at := some now }
      let db1 := { db with orders := updateOrderById order1 db.orders }
      let rows := orderItemRows db1.orderItems db1.items order.id
      let db2 := { db1 with items := restoreStock rows db1.items }
      let db3 := { db2 with auditLogs := db2.auditLogs ++ [{ action_type := "order_canceled", target_id := order.id }] }
      let respRows := orderItemRows db3.orderItems db3.items order.id
      let respItems := respRows.map (fun r => ({ quantity := r.1.quantity, item := r.2 } : CartItemOut))
      let price_data := calculate_cart_total respItems
      (db3, .ok
        { id := order1.id
          user_id := order1.user_id
          total_cents := if price_data.shipping_waived then price_data.total_item_cents else price_data.total_cents
          total_weight_oz := price_data.total_weight_oz
          status := order1.status
          display_address := order1.display_address
          items := respItems })

/-- `app/routers/vehicle.py` — `order_route`: primary-key lookup, then 404
"not_found" when the order is absent or owned by another user (the same
response in both cases). -/
def order_route (db : DB) (order_id : Nat) (user : UserCtx) :
    Except ApiError OrderRouteResponse :=
  match db.orders.find? (fun o => o.id == order_id) with
  | none => .error (.http 404 "not_found")
  | some order =>
    if order.user_id ≠ user.id then .error (.http 404 "not_found")
    else .ok { polyline := order.polyline }

/-- One visited destination of a returned route (`v.shipment_index` indexes
into the list of PACKING orders sent to the optimizer). -/
structure Visit where
  shipment_index : Nat
deriving DecidableEq

/-- The `route_polyline` member of a returned route. -/
structure RoutePolyline where
  points : String
deriving DecidableEq

/-- One route of the route-optimization response (the fields read at
`vehicle.py` lines 96-102). -/
structure ShipmentRoute where
  visits : List Visit
  route_polyline : RoutePolyline
deriving DecidableEq

/-- `vehicle.py` line 90: the ids of the orders read with status PACKING, in
table order — the snapshot the later batch write indexes into. -/
def dispatchSnapshot (db : DB) : List Nat :=
  (db.orders.filter (fun o => o.status == OrderStatus.PACKING)).map (fun o => o.id)

/-- `vehicle.py` lines 100-102: the unconditional per-order write
`orders[i].delivery_vehicle_id = vehicle.id; orders[i].status = SHIPPED;
orders[i].polyline = r.route_polyline.points` — applied to the row with the
snapshotted id, with no check of its current status. -/
def assignOrder (vid : Nat) (poly : String) (oid : Nat) (orders : List Order) : List Order :=
  orders.map (fun o =>
    if o.id == oid then
      { o with delivery_vehicle_id := some vid, status := .SHIPPED, polyline := some poly }
    else o)

/-- Flattening of the visit loops at `vehicle.py` lines 96-98 into the list of
(order id, polyline) writes in execution order; `none` models the IndexError
raised by `orders[i]` when a shipment index falls outside the snapshot (the
enclosing handler then drops the uncommitted changes). -/
def visitJobs (snapshot : List Nat) (poly : String) : List Visit → Option (List (Nat × String))
  | [] => some []
  | v :: rest =>
    match snapshot[v.shipment_index]? with
    | none => none
    | some oid => (visitJobs snapshot poly rest).map (fun js => (oid, poly) :: js)

/-- All writes of all routes, in execution order. -/
def routeJobs (snapshot : List Nat) : List ShipmentRoute → Option (List (Nat × String))
  | [] => some []
  | r :: rest =>
    match visitJobs snapshot r.route_polyline.points r.visits, routeJobs snapshot rest with
    | some a, some b => some (a ++ b)
    | _, _ => none

/-- Apply the assignment writes in order. -/
def applyJobs (vid : Nat) (jobs : List (Nat × String)) (orders : List Order) : List Order :=
  jobs.foldl (fun acc j => assignOrder vid j.2 j.1 acc) orders

/-- The batch write + commit of the dispatch loop (`vehicle.py` lines 96-106),
as a function of the snapshot read before the awaited route-optimization call.
`none` is the IndexError path: nothing is committed. -/
def dispatchWrite (db : DB) (vid : Nat) (snapshot : List Nat)
    (routes : List ShipmentRoute) : Option DB :=
  (routeJobs snapshot routes).map (fun jobs => { db with orders := applyJobs vid jobs db.orders })

/-- Whether the `/ws/deliver` receive loop is still alive after an iteration:
an uncaught exception inside the `while True` body is caught by the
handler-level `except`, which logs and returns, closing the connection. -/
inductive SessionOutcome where
  | continues
  | terminated
deriving DecidableEq

/-- One iteration of the authenticated `/ws/deliver` loop on an inbound frame
(`vehicle.py` lines 88-117), with the external route-optimization call's
outcome as an input: if the vehicle row is READY, the PACKING orders are read
and the optimizer is awaited; a raised `RouteUnavailable`-style error
propagates to the handler's `except`, which logs and returns — terminating
the websocket session with no order mutated.  On success the batch write is
applied and the loop continues (notification pushes do not affect the
database). -/
def deliverDispatchStep (db : DB) (vehicle : DeliveryVehicle)
    (routeResult : Except Unit (List ShipmentRoute)) : DB × SessionOutcome :=
  if vehicle.status = .READY then
    match routeResult with
    | .error _ => (db, .terminated)
    | .ok routes =>
      match dispatchWrite db vehicle.id (dispatchSnapshot db) routes with
      | none => (db, .terminated)
      | some db1 => (db1, .continues)
  else (db, .continues)

/-! ### Generic list lemmas -/

theorem find?_map_pred {α : Type} (p : α → Bool) (f : α → α)
    (hf : ∀ a, p (f a) = p a) :
    ∀ l : List α, (l.map f).find? p = (l.find? p).map f := by
  intro l
  induction l with
  | nil => rfl
  | cons a t ih =>
    cases hpa : p a with
    | true =>
      rw [List.map_cons, List.find?_cons_of_pos _ (by rw [hf a]; exact hpa),
        List.find?_cons_of_pos _ hpa]
      rfl
    | false =>
      rw [List.map_cons, List.find?_cons_of_neg _ (by rw [hf a, hpa]; simp),
        List.find?_cons_of_neg _ (by rw [hpa]; simp), ih]

theorem find?_append_of_none {α : Type} {p : α → Bool} {l₁ l₂ : List α}
    (h : l₁.find? p = none) : (l₁ ++ l₂).find? p = l₂.find? p := by
  induction l₁ with
  | nil => rfl
  | cons a t ih =>
    cases hpa : p a with
    | true => rw [List.find?_cons_of_pos _ hpa] at h; exact absurd h (by simp)
    | false =>
      rw [List.find?_cons_of_neg _ (by rw [hpa]; simp)] at h
      rw [List.cons_append, List.find?_cons_of_neg _ (by rw [hpa]; simp), ih h]

instance exceptDecEq {ε α : Type} [DecidableEq ε] [DecidableEq α] :
    DecidableEq (Except ε α) := fun x y =>
  match x, y with
  | .ok a, .ok b =>
    if h : a = b then isTrue (by rw [h]) else isFalse (by intro hc; injection hc; contradiction)
  | .error a, .error b =>
    if h : a = b then isTrue (by rw [h]) else isFalse (by intro hc; injection hc; contradiction)
  | .ok _, .error _ => isFalse (fun hc => Except.noConfusion hc)
  | .error _, .ok _ => isFalse (fun hc => Except.noConfusion hc)

/-! ### Evaluation lemmas for the pydantic constructor -/

theorem mk_resp_wrong_kw (n : Nat) :
    mkConfirmPaymentResponse [("order_id", n)] = .error "Field required: orderId" := rfl

theorem mk_resp_right_kw (n : Nat) :
    mkConfirmPaymentResponse [("orderId", n)] = .ok { orderId := n } := rfl

/-! ### Shared concrete fixtures -/

def emptyDB : DB :=
  { items := [], cartItems := [], orders := [], orderItems := [], auditLogs := [], nextOrderId := 1 }

def userAlice : UserCtx := { id := 3, email := "alice", stripe_customer_id := "cus_a" }

def orderOfBob : Order :=
  { id := 5, user_id := 2, payment_intent_id := some "pi_b", display_address := "B"
    latitude := 0, longitude := 0, status := .PACKING, polyline := none
    delivery_vehicle_id := none, canceled_at := none, delivered_at := none }

def dbWithBobOrder : DB := { emptyDB with orders := [orderOfBob] }

/-! ### Claim C10 — cart totals and the user-visible display total -/

/-- Claim C10: `calculate_cart_total` returns `total_cents` equal to the sum
of line price times quantity plus the flat 1000-cent shipping fee, and
reports `shipping_waived` exactly when the cart's total weight is below
320 oz; the shared user-visible-total expression (order listing,
cancellation response, payment-intent display total) equals the item sum
alone when shipping is waived and the item sum plus 1000 cents otherwise. -/
theorem cart_total_and_display_total (l : List CartItemOut) :
    (calculate_cart_total l).total_cents = itemSumCents l + 1000 ∧
    ((calculate_cart_total l).shipping_waived = true ↔ itemWeightOz l < 20 * 16) ∧
    orderDisplayTotalCents l =
      (if itemWeightOz l < 20 * 16 then itemSumCents l else itemSumCents l + 1000) := by
  refine ⟨rfl, ?_, ?_⟩
  · simp only [calculate_cart_total]
    split
    · simp; omega
    · simp; omega
  · simp only [orderDisplayTotalCents, calculate_cart_total]
    split
    · next h => rw [if_neg (show ¬ itemWeightOz l < 20 * 16 by omega)]; simp
    · next h => rw [if_pos (show itemWeightOz l < 20 * 16 by omega)]; simp

/-! ### Claim C8 — owner-only access indistinguishable from nonexistence -/

/-- Claim C8: for every database, requesting user and order id such that no
stored order has both that id and that owner (covering both "no such order"
and "exists but owned by someone else"), `cancel_order` returns the constant
404 "Order not found" response with the state unchanged, and `order_route`
returns the constant 404 "not_found" response — so the two cases are
indistinguishable to the caller. -/
theorem owner_filtered_not_found (db : DB) (oid : Nat) (user : UserCtx) (now : Nat)
    (h : ∀ o ∈ db.orders, o.id = oid → o.user_id ≠ user.id) :
    cancel_order db oid user now = (db, .error (.http 404 "Order not found")) ∧
    order_route db oid user = .error (.http 404 "not_found") := by
  constructor
  · have hnone : db.orders.find? (fun o => o.id == oid && o.user_id == user.id) = none := by
      apply List.find?_eq_none.mpr
      intro o ho
      simp only [Bool.and_eq_true, beq_iff_eq, not_and]
      exact fun h1 => h o ho h1
    simp [cancel_order, hnone]
  · cases hfind : db.orders.find? (fun o => o.id == oid) with
    | none => simp [order_route, hfind]
    | some o =>
      have hmem := List.mem_of_find?_eq_some hfind
      have hid : o.id = oid := by simpa using List.find?_some hfind
      have hne := h o hmem hid
      simp [order_route, hfind, hne]

/-- Witness for C8, applying the theorem at two concrete inputs: a database
with no order of id 5, and a database where order 5 belongs to another user;
the requester receives literally the same two responses in both cases. -/
theorem owner_filtered_not_found_witness :
    (cancel_order emptyDB 5 userAlice 0 = (emptyDB, .error (.http 404 "Order not found")) ∧
      order_route emptyDB 5 userAlice = .error (.http 404 "not_found")) ∧
    (cancel_order dbWithBobOrder 5 userAlice 0 =
        (dbWithBobOrder, .error (.http 404 "Order not found")) ∧
      order_route dbWithBobOrder 5 userAlice = .error (.http 404 "not_found")) :=
  ⟨owner_filtered_not_found emptyDB 5 userAlice 0 (by decide),
   owner_filtered_not_found dbWithBobOrder 5 userAlice 0 (by decide)⟩

/-! ### Claim C1 — idempotent retry path crashes on response construction -/

def userDup : UserCtx := { id := 7, email := "u7", stripe_customer_id := "cus_7" }

def intentDup : PaymentIntent := { id := "pi_1", customer := "cus_7", status := "succeeded" }

def payloadDup : ConfirmPaymentRequest := { displayAddress := "A", latitude := 1, longitude := 2 }

def dbDup : DB :=
  { items := [{ id := 1, name := "Apple", price_cents := 100, weight_oz := 4, stock_qty := 3 }]
    cartItems := []
    orders := [mkNewOrder 1 userDup intentDup payloadDup]
    orderItems := [{ order_id := 1, item_id := 1, quantity := 1 }]
    auditLogs := []
    nextOrderId := 2 }

/-- Claim C1 (code-bug evidence): retrying `confirm_payment` with a payment
reference that already has an order does create no second order and decrements
no stock (the returned state is unchanged), but instead of returning the
existing order's id it fails: line 39 builds the response as
`ConfirmPaymentResponse(order_id=...)` while the schema's required field is
`orderId` (the field name line 134 uses), so pydantic raises a validation
error and the caller gets a 500, not the id. -/
theorem confirm_duplicate_reference_errors :
    confirm_payment dbDup userDup intentDup payloadDup =
      (dbDup, .error (.validationFailure "Field required: orderId")) := rfl

/-! ### Claim C2 — confirmation is not atomic: weight rejection leaves a
partial order behind -/

def userW : UserCtx := { id := 8, email := "u8", stripe_customer_id := "cus_8" }

def intentW : PaymentIntent := { id := "pi_w", customer := "cus_8", status := "succeeded" }

def payloadW : ConfirmPaymentRequest := { displayAddress := "W", latitude := 0, longitude := 0 }

def dbW : DB :=
  { items := [{ id := 2, name := "Anvil", price_cents := 5000, weight_oz := 3300, stock_qty := 10 }]
    cartItems := [{ id := 1, quantity := 1, item_id := 2, user_id := 8 }]
    orders := [], orderItems := [], auditLogs := [], nextOrderId := 1 }

/-- Claim C2 (code-bug evidence): on a cart whose total weight exceeds
3200 oz, `confirm_payment` rejects with the weight error, yet the order it
committed before the checks survives in the database with zero order lines
and the cart is not cleared — a partial state observable after the call
returns, contradicting the all-or-nothing contract (the insufficient-stock
branch does delete the order, marked "# Rollback order creation"; the weight
branch omits that rollback). -/
theorem confirm_weight_rejection_partial_state :
    confirm_payment dbW userW intentW payloadW =
      ({ dbW with orders := [mkNewOrder 1 userW intentW payloadW], nextOrderId := 2 },
        .error .weightExceeded) ∧
    (confirm_payment dbW userW intentW payloadW).1.orders ≠ dbW.orders ∧
    (confirm_payment dbW userW intentW payloadW).1.orderItems = [] ∧
    (confirm_payment dbW userW intentW payloadW).1.cartItems = dbW.cartItems :=
  ⟨rfl, by decide, rfl, rfl⟩

/-! ### The stock/weight check loop -/

/-- Total shipped weight of a list of cart rows. -/
def rowsWeight (rows : List (CartItem × Item)) : Int :=
  (rows.map (fun r => r.2.weight_oz * r.1.quantity)).sum

theorem stockCheckLoop_error_of_first :
    ∀ (rows : List (CartItem × Item)) (rr : CartItem × Item),
      rows.find? (fun r => decide (r.1.quantity > r.2.stock_qty)) = some rr →
      ∀ acc, stockCheckLoop rows acc =
        .error (.insufficientStock rr.2.name rr.2.stock_qty rr.1.quantity) := by
  intro rows
  induction rows with
  | nil => intro rr h; exact absurd h (by simp)
  | cons r t ih =>
    intro rr hfind acc
    obtain ⟨ci, it⟩ := r
    by_cases hq : ci.quantity > it.stock_qty
    · rw [List.find?_cons_of_pos _ (by simpa using hq)] at hfind
      injection hfind with h
      subst h
      simp only [stockCheckLoop]
      rw [if_pos hq]
    · rw [List.find?_cons_of_neg _ (by simpa using hq)] at hfind
      simp only [stockCheckLoop]
      rw [if_neg hq]
      exact ih rr hfind _

theorem stockCheckLoop_ok_of_all :
    ∀ (rows : List (CartItem × Item)),
      (∀ r ∈ rows, ¬ r.1.quantity > r.2.stock_qty) →
      ∀ acc, stockCheckLoop rows acc = .ok (acc + rowsWeight rows) := by
  intro rows
  induction rows with
  | nil => intro _ acc; simp [stockCheckLoop, rowsWeight]
  | cons r t ih =>
    intro hall acc
    obtain ⟨ci, it⟩ := r
    simp only [stockCheckLoop]
    rw [if_neg (hall (ci, it) (List.mem_cons_self _ _))]
    rw [ih (fun x hx => hall x (List.mem_cons_of_mem _ hx)) _]
    simp only [rowsWeight, List.map_cons, List.sum_cons]
    rw [add_assoc]

/-! ### Claim C4 — insufficient stock aborts on the first failing line -/

/-- Claim C4: for every confirmation (valid intent, fresh payment reference)
in which some cart line's quantity exceeds that item's stock, the call aborts
at the first such row with an InsufficientStock error naming that item and
its available quantity, and the returned state differs from the initial one
only in the consumed autoincrement id: the committed order was rolled back
and every Item's stock is untouched (no reservations had been made). -/
theorem confirm_insufficient_stock_first_failure
    (db : DB) (user : UserCtx) (intent : PaymentIntent) (payload : ConfirmPaymentRequest)
    (rr : CartItem × Item)
    (hcust : intent.customer = user.stripe_customer_id)
    (hstat : intent.status = "succeeded")
    (hdup : findOrderByIntent db.orders intent.id = none)
    (hfresh : ∀ o ∈ db.orders, o.id ≠ db.nextOrderId)
    (hfirst : (cartRows db.cartItems db.items user.id).find?
        (fun r => decide (r.1.quantity > r.2.stock_qty)) = some rr) :
    confirm_payment db user intent payload =
      ({ db with nextOrderId := db.nextOrderId + 1 },
        .error (.insufficientStock rr.2.name rr.2.stock_qty rr.1.quantity)) := by
  have h1 : ¬ intent.customer ≠ user.stripe_customer_id := by simp [hcust]
  have h2 : ¬ intent.status ≠ "succeeded" := by simp [hstat]
  have hrows := stockCheckLoop_error_of_first _ rr hfirst 0
  have hfilter : (db.orders ++ [mkNewOrder db.nextOrderId user intent payload]).filter
      (fun o2 => !(o2.id == db.nextOrderId)) = db.orders := by
    rw [List.filter_append]
    have ha : db.orders.filter (fun o2 => !(o2.id == db.nextOrderId)) = db.orders := by
      rw [List.filter_eq_self]
      intro o ho
      simpa using hfresh o ho
    have hb : [mkNewOrder db.nextOrderId user intent payload].filter
        (fun o2 => !(o2.id == db.nextOrderId)) = [] := by
      simp [mkNewOrder]
    rw [ha, hb, List.append_nil]
  simp only [confirm_payment, if_neg h1, if_neg h2, hdup, hrows, hfilter]

/-- Item A of the C4 scenario: zero stock. -/
def itemA : Item := { id := 10, name := "A", price_cents := 500, weight_oz := 8, stock_qty := 0 }

def userS : UserCtx := { id := 9, email := "u9", stripe_customer_id := "cus_9" }

def intentS : PaymentIntent := { id := "pi_s", customer := "cus_9", status := "succeeded" }

def payloadS : ConfirmPaymentRequest := { displayAddress := "S", latitude := 0, longitude := 0 }

def dbS : DB :=
  { items := [itemA]
    cartItems := [{ id := 4, quantity := 1, item_id := 10, user_id := 9 }]
    orders := [], orderItems := [], auditLogs := [], nextOrderId := 1 }

/-- Witness for C4 at the spec's scenario: item A has stock 0 and the cart
requests 1 unit, so the call fails with InsufficientStock(available = 0)
and the state is unchanged apart from the consumed order id. -/
theorem confirm_insufficient_stock_first_failure_witness :
    confirm_payment dbS userS intentS payloadS =
      ({ dbS with nextOrderId := dbS.nextOrderId + 1 },
        .error (.insufficientStock "A" 0 1)) :=
  confirm_insufficient_stock_first_failure dbS userS intentS payloadS
    ({ id := 4, quantity := 1, item_id := 10, user_id := 9 }, itemA)
    rfl rfl rfl (by decide) (by decide)

/-! ### Claim C5 — the weight limit -/

def itemBoth : Item :=
  { id := 11, name := "B", price_cents := 100, weight_oz := 3300, stock_qty := 0 }

def dbBoth : DB :=
  { items := [itemBoth]
    cartItems := [{ id := 6, quantity := 1, item_id := 11, user_id := 9 }]
    orders := [], orderItems := [], auditLogs := [], nextOrderId := 1 }

/-- Counterexample to C5 as stated: a confirmation whose cart lines' total
weight exceeds 3200 oz but in which a line also exceeds available stock is
rejected with InsufficientStock, not WeightExceeded — the stock check runs
first, so "every confirmation over 3200 oz is rejected with WeightExceeded"
is false on the code. -/
theorem confirm_overweight_rejected_with_stock_error :
    rowsWeight (cartRows dbBoth.cartItems dbBoth.items userS.id) > 200 * 16 ∧
    (confirm_payment dbBoth userS intentS payloadS).2 =
      .error (.insufficientStock "B" 0 1) ∧
    (confirm_payment dbBoth userS intentS payloadS).2 ≠ .error .weightExceeded := by
  refine ⟨by decide, rfl, by decide⟩

/-- Claim C5 as amended: for every confirmation (valid intent, fresh payment
reference) in which every cart line is within available stock and the lines'
total weight exceeds 3200 oz, the call is rejected with WeightExceeded and
every Item's stock is unchanged — no reservation is made before the weight
check, so there is nothing to roll back (the committed order row itself is
not removed; that is claim C2's defect, outside this claim's statement about
inventory). -/
theorem confirm_weight_exceeded_rejects
    (db : DB) (user : UserCtx) (intent : PaymentIntent) (payload : ConfirmPaymentRequest)
    (hcust : intent.customer = user.stripe_customer_id)
    (hstat : intent.status = "succeeded")
    (hdup : findOrderByIntent db.orders intent.id = none)
    (hstock : ∀ r ∈ cartRows db.cartItems db.items user.id, ¬ r.1.quantity > r.2.stock_qty)
    (hw : rowsWeight (cartRows db.cartItems db.items user.id) > 200 * 16) :
    confirm_payment db user intent payload =
      ({ db with
          orders := db.orders ++ [mkNewOrder db.nextOrderId user intent payload],
          nextOrderId := db.nextOrderId + 1 },
        .error .weightExceeded) := by
  have h1 : ¬ intent.customer ≠ user.stripe_customer_id := by simp [hcust]
  have h2 : ¬ intent.status ≠ "succeeded" := by simp [hstat]
  have hrows := stockCheckLoop_ok_of_all _ hstock 0
  have hgt : (0 : Int) + rowsWeight (cartRows db.cartItems db.items user.id) > 200 * 16 := by
    omega
  simp only [confirm_payment, if_neg h1, if_neg h2, hdup, hrows, if_pos hgt]

/-- Witness for the amended C5: a single 3300-oz line within stock is
rejected with WeightExceeded and the item's stock is untouched. -/
theorem confirm_weight_exceeded_rejects_witness :
    confirm_payment dbW userW intentW payloadW =
      ({ dbW with
          orders := dbW.orders ++ [mkNewOrder dbW.nextOrderId userW intentW payloadW],
          nextOrderId := dbW.nextOrderId + 1 },
        .error .weightExceeded) :=
  confirm_weight_exceeded_rejects dbW userW intentW payloadW rfl rfl rfl
    (by decide) (by decide)

/-! ### Claim C9 — the empty-cart confirmation -/

def userE : UserCtx := { id := 12, email := "u12", stripe_customer_id := "cus_12" }

def intentE : PaymentIntent := { id := "pi_e", customer := "cus_12", status := "succeeded" }

def payloadE : ConfirmPaymentRequest := { displayAddress := "E", latitude := 0, longitude := 0 }

/-- Counterexample to C9 as stated: a confirmation passing payment
verification and the duplicate check whose cart is empty does not return an
error — it succeeds with the new order id and persists an Order with zero
OrderLines. -/
theorem confirm_empty_cart_succeeds_concrete :
    (confirm_payment emptyDB userE intentE payloadE).2 = .ok { orderId := 1 } ∧
    (confirm_payment emptyDB userE intentE payloadE).1.orders =
      [mkNewOrder 1 userE intentE payloadE] ∧
    (confirm_payment emptyDB userE intentE payloadE).1.orderItems = [] :=
  ⟨rfl, rfl, rfl⟩

/-- Claim C9 as amended: for every confirmation that passes payment
verification and the duplicate-payment-reference check but finds the
customer's cart empty, the call does not surface the inconsistency: it
succeeds, persists an Order with no OrderLines (stock, cart and order-line
tables unchanged), records the audit entry, and returns the new order id. -/
theorem confirm_empty_cart_persists_empty_order
    (db : DB) (user : UserCtx) (intent : PaymentIntent) (payload : ConfirmPaymentRequest)
    (hcust : intent.customer = user.stripe_customer_id)
    (hstat : intent.status = "succeeded")
    (hdup : findOrderByIntent db.orders intent.id = none)
    (hempty : cartRows db.cartItems db.items user.id = []) :
    confirm_payment db user intent payload =
      ({ db with
          orders := db.orders ++ [mkNewOrder db.nextOrderId user intent payload],
          auditLogs := db.auditLogs ++ [{ action_type := "order_created", target_id := db.nextOrderId }],
          nextOrderId := db.nextOrderId + 1 },
        .ok { orderId := db.nextOrderId }) := by
  have h1 : ¬ intent.customer ≠ user.stripe_customer_id := by simp [hcust]
  have h2 : ¬ intent.status ≠ "succeeded" := by simp [hstat]
  simp only [confirm_payment, if_neg h1, if_neg h2, hdup, hempty, stockCheckLoop,
    processRows, mk_resp_right_kw]
  rw [if_neg (by norm_num)]

/-- Witness for the amended C9 at the concrete empty-cart database. -/
theorem confirm_empty_cart_persists_empty_order_witness :
    confirm_payment emptyDB userE intentE payloadE =
      ({ emptyDB with
          orders := emptyDB.orders ++ [mkNewOrder emptyDB.nextOrderId userE intentE payloadE],
          auditLogs := emptyDB.auditLogs ++ [{ action_type := "order_created", target_id := emptyDB.nextOrderId }],
          nextOrderId := emptyDB.nextOrderId + 1 },
        .ok { orderId := emptyDB.nextOrderId }) :=
  confirm_empty_cart_persists_empty_order emptyDB userE intentE payloadE rfl rfl rfl rfl

/-! ### Claim C6 — route-planner failure during dispatch -/

def vehicleR : DeliveryVehicle := { id := 9, secret_hash := "h", status := .READY }

/-- Counterexample to C6 as stated: when the route-optimization call raises,
no order is mutated — but the vehicle session does not remain available for
a later trigger: the exception propagates to the handler-level except of
`/ws/deliver`, which logs and returns, closing the websocket.  The session
outcome is `terminated`, not `continues`. -/
theorem dispatch_route_error_closes_session :
    deliverDispatchStep dbWithBobOrder vehicleR (.error ()) = (dbWithBobOrder, .terminated) ∧
    SessionOutcome.terminated ≠ SessionOutcome.continues :=
  ⟨rfl, by decide⟩

/-- Claim C6 as amended: for every database and READY vehicle, a dispatch
iteration whose route-planner call fails leaves the database — hence every
Order and the vehicle's persisted READY status — unchanged, but the
exception terminates the websocket session; retrying requires a new
connection (on which a trigger can succeed once the service recovers). -/
theorem dispatch_route_error_no_mutation
    (db : DB) (vehicle : DeliveryVehicle) (e : Unit)
    (hready : vehicle.status = .READY) :
    deliverDispatchStep db vehicle (.error e) = (db, .terminated) := by
  simp [deliverDispatchStep, hready]

/-- Witness for the amended C6 at a concrete READY vehicle and database. -/
theorem dispatch_route_error_no_mutation_witness :
    deliverDispatchStep emptyDB vehicleR (.error ()) = (emptyDB, .terminated) :=
  dispatch_route_error_no_mutation emptyDB vehicleR () rfl

/-! ### Claim C3 — the dispatch assignment write has no compare-and-set -/

/-- Primary-key lookup of an order. -/
def findOrder (orders : List Order) (oid : Nat) : Option Order :=
  orders.find? (fun o => o.id == oid)

/-- The three field writes of `vehicle.py` lines 100-102 on one order row. -/
def assignFields (vid : Nat) (poly : String) (o : Order) : Order :=
  { o with delivery_vehicle_id := some vid, status := .SHIPPED, polyline := some poly }

theorem assignFields_id (vid : Nat) (poly : String) (o : Order) :
    (assignFields vid poly o).id = o.id := rfl

theorem assignFields_assignFields (vid : Nat) (p q : String) (o : Order) :
    assignFields vid p (assignFields vid q o) = assignFields vid p o := rfl

theorem assignOrder_eq_map (vid : Nat) (poly : String) (oid : Nat) (l : List Order) :
    assignOrder vid poly oid l =
      l.map (fun o => if o.id == oid then assignFields vid poly o else o) := rfl

theorem findOrder_assignOrder (vid : Nat) (poly : String) (oid oid2 : Nat) (l : List Order) :
    findOrder (assignOrder vid poly oid l) oid2 =
      (findOrder l oid2).map (fun o => if o.id == oid then assignFields vid poly o else o) := by
  rw [findOrder, assignOrder_eq_map]
  exact find?_map_pred _ _ (fun o => by cases h : o.id == oid <;> simp [h, assignFields]) l

theorem findOrder_id {l : List Order} {oid : Nat} {o : Order}
    (h : findOrder l oid = some o) : o.id = oid := by
  have := List.find?_some h
  simpa using this

theorem applyJobs_cons (vid : Nat) (j : Nat × String) (t : List (Nat × String))
    (l : List Order) :
    applyJobs vid (j :: t) l = applyJobs vid t (assignOrder vid j.2 j.1 l) := rfl

theorem applyJobs_find_keep (vid : Nat) :
    ∀ (jobs : List (Nat × String)) (l : List Order) (oid : Nat) (o : Order) (q : String),
      findOrder l oid = some (assignFields vid q o) →
      ∃ p, findOrder (applyJobs vid jobs l) oid = some (assignFields vid p o) := by
  intro jobs
  induction jobs with
  | nil => intro l oid o q h; exact ⟨q, h⟩
  | cons j t ih =>
    intro l oid o q h
    rw [applyJobs_cons]
    by_cases hid : (o.id == j.1) = true
    · have hstep : findOrder (assignOrder vid j.2 j.1 l) oid = some (assignFields vid j.2 o) := by
        rw [findOrder_assignOrder, h]
        simp only [Option.map_some', assignFields_id]
        rw [if_pos hid, assignFields_assignFields]
      exact ih _ _ _ _ hstep
    · have hstep : findOrder (assignOrder vid j.2 j.1 l) oid = some (assignFields vid q o) := by
        rw [findOrder_assignOrder, h]
        simp only [Option.map_some', assignFields_id]
        rw [if_neg hid]
      exact ih _ _ _ _ hstep

theorem applyJobs_find_assigned (vid : Nat) :
    ∀ (jobs : List (Nat × String)) (l : List Order) (oid : Nat) (o : Order),
      findOrder l oid = some o → oid ∈ jobs.map Prod.fst →
      ∃ p, findOrder (applyJobs vid jobs l) oid = some (assignFields vid p o) := by
  intro jobs
  induction jobs with
  | nil => intro l oid o _ hmem; simp at hmem
  | cons j t ih =>
    intro l oid o h hmem
    rw [applyJobs_cons]
    by_cases hid : oid = j.1
    · have hbeq : (o.id == j.1) = true := by simp [findOrder_id h, hid]
      have hstep : findOrder (assignOrder vid j.2 j.1 l) oid = some (assignFields vid j.2 o) := by
        rw [findOrder_assignOrder, h]
        simp only [Option.map_some']
        rw [if_pos hbeq]
      exact applyJobs_find_keep vid t _ _ _ _ hstep
    · have hbeq : ¬ (o.id == j.1) = true := by simp [findOrder_id h]; exact hid
      have hstep : findOrder (assignOrder vid j.2 j.1 l) oid = some o := by
        rw [findOrder_assignOrder, h]
        simp only [Option.map_some']
        rw [if_neg hbeq]
      have hmem2 : oid ∈ t.map Prod.fst := by
        simp only [List.map_cons, List.mem_cons] at hmem
        exact hmem.resolve_left hid
      exact ih _ _ _ hstep hmem2

/-- The order ids written by a dispatch batch, in execution order. -/
def writtenIds (snapshot : List Nat) (routes : List ShipmentRoute) : List Nat :=
  match routeJobs snapshot routes with
  | some jobs => jobs.map Prod.fst
  | none => []

/-- Claim C3 as amended: the dispatch assignment writes vehicle id,
status=SHIPPED and polyline to every order captured in its pre-route-call
snapshot unconditionally — there is no per-order compare-and-set, and the
write applies whatever the order's status is at write time (the hypothesis
places no constraint on `o.status`).  Consequently a cancellation that
commits between the dispatch read and the dispatch write is overwritten:
both operations take effect, and the order ends SHIPPED with a vehicle even
though it was CANCELED (with its inventory restored) at write time. -/
theorem dispatch_write_unconditional
    (db : DB) (vid : Nat) (snapshot : List Nat) (routes : List ShipmentRoute) (db2 : DB)
    (hw : dispatchWrite db vid snapshot routes = some db2)
    (oid : Nat) (o : Order)
    (ho : findOrder db.orders oid = some o)
    (hmem : oid ∈ writtenIds snapshot routes) :
    ∃ p, findOrder db2.orders oid =
      some { o with delivery_vehicle_id := some vid, status := .SHIPPED, polyline := some p } := by
  unfold dispatchWrite at hw
  cases hjobs : routeJobs snapshot routes with
  | none => rw [hjobs] at hw; exact absurd hw (by simp)
  | some jobs =>
    rw [hjobs] at hw
    simp only [Option.map_some'] at hw
    injection hw with hw
    subst hw
    have hmem2 : oid ∈ jobs.map Prod.fst := by
      simpa [writtenIds, hjobs] using hmem
    exact applyJobs_find_assigned vid jobs db.orders oid o ho hmem2

def userBob : UserCtx := { id := 2, email := "bob", stripe_customer_id := "cus_b" }

def itemR : Item := { id := 20, name := "R", price_cents := 300, weight_oz := 16, stock_qty := 3 }

/-- The racing database: Bob's order 5 is AWAITING_DISPATCH (PACKING) with
one line of 2 units of item 20. -/
def dbRace : DB :=
  { items := [itemR], cartItems := [], orders := [orderOfBob]
    orderItems := [{ order_id := 5, item_id := 20, quantity := 2 }]
    auditLogs := [], nextOrderId := 6 }

/-- State after the cancellation commits (between the dispatch read and the
dispatch write). -/
def dbRaceCanceled : DB := (cancel_order dbRace 5 userBob 100).1

def routeOne : ShipmentRoute :=
  { visits := [{ shipment_index := 0 }], route_polyline := { points := "poly" } }

def orderBobCanceled : Order :=
  { orderOfBob with status := .CANCELED, canceled_at := some 100 }

/-- Order 5 after the race: SHIPPED with a vehicle and polyline, yet its
cancellation also took full effect (canceled_at set, stock restored). -/
def orderBobOverwritten : Order :=
  { orderOfBob with
      status := .SHIPPED, polyline := some "poly", delivery_vehicle_id := some 9
      canceled_at := some 100 }

/-- Final database of the race. -/
def dbRaceExpected : DB :=
  { items := [{ itemR with stock_qty := 5 }], cartItems := []
    orders := [orderBobOverwritten]
    orderItems := [{ order_id := 5, item_id := 20, quantity := 2 }]
    auditLogs := [{ action_type := "order_canceled", target_id := 5 }]
    nextOrderId := 6 }

/-- Counterexample to C3 as stated: the dispatch snapshot reads order 5 while
it is PACKING; the cancellation then commits in full (status CANCELED, the
2 units restored, the cancel call returns ok); the dispatch write then
applies anyway — there is no compare-and-set checking that the order is
still AWAITING_DISPATCH at write time — so both racers win: the final order
is SHIPPED with vehicle 9 and a polyline while also carrying the completed
cancellation (canceled_at set, inventory restored). -/
theorem dispatch_cancel_race_both_win :
    dispatchSnapshot dbRace = [5] ∧
    (cancel_order dbRace 5 userBob 100).2.isOk = true ∧
    findOrder dbRaceCanceled.orders 5 = some orderBobCanceled ∧
    dispatchWrite dbRaceCanceled 9 (dispatchSnapshot dbRace) [routeOne] = some dbRaceExpected ∧
    orderBobOverwritten.status = .SHIPPED ∧
    orderBobOverwritten.delivery_vehicle_id = some 9 ∧
    orderBobOverwritten.canceled_at = some 100 ∧
    dbRaceExpected.items = [{ itemR with stock_qty := 5 }] :=
  ⟨rfl, rfl, rfl, rfl, rfl, rfl, rfl, rfl⟩

/-- Witness for the amended C3, applying the theorem at the concrete race:
the write applies to order 5 even though its status at write time is
CANCELED. -/
theorem dispatch_write_unconditional_witness :
    ∃ p, findOrder dbRaceExpected.orders 5 =
      some { orderBobCanceled with
        delivery_vehicle_id := some 9, status := OrderStatus.SHIPPED, polyline := some p } :=
  dispatch_write_unconditional dbRaceCanceled 9 (dispatchSnapshot dbRace) [routeOne]
    dbRaceExpected rfl 5 orderBobCanceled rfl (by decide)

/-! ### The stock-adjustment algebra used by the confirm/cancel round trip -/

theorem adjustOne_id (a : Nat) (d : Int) (it : Item) : (adjustOne a d it).id = it.id := by
  unfold adjustOne
  split <;> rfl

theorem adjustOne_comm (a b : Nat) (d e : Int) (it : Item) :
    adjustOne a d (adjustOne b e it) = adjustOne b e (adjustOne a d it) := by
  obtain ⟨i, n, p, w, s⟩ := it
  unfold adjustOne
  by_cases ha : (i == a) = true <;> by_cases hb : (i == b) = true
  · simp [ha, hb]
    omega
  · simp [ha, hb]
  · simp [ha, hb]
  · simp [ha, hb]

theorem adjustOne_cancel (a : Nat) (q : Int) (it : Item) :
    adjustOne a q (adjustOne a (-q) it) = it := by
  obtain ⟨i, n, p, w, s⟩ := it
  unfold adjustOne
  by_cases ha : (i == a) = true <;> simp [ha]

theorem adjustStock_comm (a b : Nat) (d e : Int) (items : List Item) :
    adjustStock a d (adjustStock b e items) = adjustStock b e (adjustStock a d items) := by
  unfold adjustStock
  rw [List.map_map, List.map_map]
  have hfun : (adjustOne a d ∘ adjustOne b e) = (adjustOne b e ∘ adjustOne a d) := by
    funext it
    exact adjustOne_comm a b d e it
  rw [hfun]

theorem adjustStock_cancel (a : Nat) (q : Int) (items : List Item) :
    adjustStock a q (adjustStock a (-q) items) = items := by
  unfold adjustStock
  rw [List.map_map]
  have hfun : (adjustOne a q ∘ adjustOne a (-q)) = id := by
    funext it
    exact adjustOne_cancel a q it
  rw [hfun, List.map_id]

theorem applyDeltas_cons (d : Nat × Int) (ds : List (Nat × Int)) (items : List Item) :
    applyDeltas (d :: ds) items = applyDeltas ds (adjustStock d.1 d.2 items) := rfl

theorem adjustStock_applyDeltas (a : Nat) (d : Int) :
    ∀ (ds : List (Nat × Int)) (items : List Item),
      adjustStock a d (applyDeltas ds items) = applyDeltas ds (adjustStock a d items) := by
  intro ds
  induction ds with
  | nil => intro items; rfl
  | cons d2 t ih =>
    intro items
    rw [applyDeltas_cons, applyDeltas_cons, ih, adjustStock_comm]

theorem applyDeltas_roundtrip :
    ∀ (ds : List (Nat × Int)) (items : List Item),
      applyDeltas ds (applyDeltas (ds.map (fun d => (d.1, -d.2))) items) = items := by
  intro ds
  induction ds with
  | nil => intro items; rfl
  | cons d t ih =>
    intro items
    rw [List.map_cons, applyDeltas_cons, applyDeltas_cons, adjustStock_applyDeltas,
      adjustStock_cancel, ih]

/-! ### Component lemmas for the fulfillment loop -/

theorem processRows_items (oid : Nat) :
    ∀ (rows : List (CartItem × Item)) (db : DB),
      (processRows oid rows db).items =
        applyDeltas (rows.map (fun r => (r.2.id, -r.1.quantity))) db.items := by
  intro rows
  induction rows with
  | nil => intro db; rfl
  | cons r t ih =>
    intro db
    obtain ⟨ci, it⟩ := r
    simp only [processRows]
    rw [ih]
    rfl

theorem processRows_orders (oid : Nat) :
    ∀ (rows : List (CartItem × Item)) (db : DB),
      (processRows oid rows db).orders = db.orders := by
  intro rows
  induction rows with
  | nil => intro db; rfl
  | cons r t ih =>
    intro db
    obtain ⟨ci, it⟩ := r
    simp only [processRows]
    rw [ih]

theorem processRows_orderItems (oid : Nat) :
    ∀ (rows : List (CartItem × Item)) (db : DB),
      (processRows oid rows db).orderItems =
        db.orderItems ++ rows.map
          (fun r => ({ order_id := oid, item_id := r.2.id, quantity := r.1.quantity } : OrderItem)) := by
  intro rows
  induction rows with
  | nil => intro db; simp [processRows]
  | cons r t ih =>
    intro db
    obtain ⟨ci, it⟩ := r
    simp only [processRows]
    rw [ih]
    simp [List.append_assoc]

/-! ### Transporting item lookups across stock adjustments -/

theorem find?_some_id {items : List Item} {n : Nat} {it : Item}
    (h : items.find? (fun x => x.id == n) = some it) : it.id = n := by
  have := List.find?_some h
  simpa using this

theorem find?_adjustStock (a : Nat) (d : Int) (n : Nat) (items : List Item) :
    (adjustStock a d items).find? (fun x => x.id == n) =
      (items.find? (fun x => x.id == n)).map (adjustOne a d) := by
  unfold adjustStock
  exact find?_map_pred _ _ (fun it => by rw [adjustOne_id]) items

theorem find?_applyDeltas (n : Nat) :
    ∀ (ds : List (Nat × Int)) (items : List Item) (it : Item),
      items.find? (fun x => x.id == n) = some it →
      ∃ it2, (applyDeltas ds items).find? (fun x => x.id == n) = some it2 ∧ it2.id = n := by
  intro ds
  induction ds with
  | nil => intro items it h; exact ⟨it, h, find?_some_id h⟩
  | cons d t ih =>
    intro items it h
    rw [applyDeltas_cons]
    exact ih _ (adjustOne d.1 d.2 it) (by rw [find?_adjustStock, h]; rfl)

theorem cartRows_mem {cis : List CartItem} {items : List Item} {uid : Nat}
    {r : CartItem × Item} (hr : r ∈ cartRows cis items uid) :
    items.find? (fun it => it.id == r.1.item_id) = some r.2 := by
  unfold cartRows at hr
  obtain ⟨ci, hci, hmap⟩ := List.mem_filterMap.mp hr
  cases hfind : items.find? (fun it => it.id == ci.item_id) with
  | none => rw [hfind] at hmap; simp at hmap
  | some it0 =>
    rw [hfind] at hmap
    simp only [Option.map_some'] at hmap
    injection hmap with hmap
    subst hmap
    exact hfind

/-! ### The restore loop as a delta application -/

theorem restoreStock_eq_applyDeltas (rows : List (OrderItem × Item)) (items : List Item) :
    restoreStock rows items =
      applyDeltas (rows.map (fun r => (r.2.id, r.1.quantity))) items := by
  unfold restoreStock applyDeltas
  rw [List.foldl_map]

theorem orderItemRows_append_fresh {A B : List OrderItem} {items : List Item} {oid : Nat}
    (h : ∀ oi ∈ A, oi.order_id ≠ oid) :
    orderItemRows (A ++ B) items oid = orderItemRows B items oid := by
  unfold orderItemRows
  rw [List.filter_append]
  have hA : A.filter (fun oi => oi.order_id == oid) = [] := by
    rw [List.filter_eq_nil_iff]
    intro oi hoi
    simpa using h oi hoi
  rw [hA, List.nil_append]

theorem orderItemRows_all {B : List OrderItem} {items : List Item} {oid : Nat}
    (h : ∀ oi ∈ B, oi.order_id = oid) :
    orderItemRows B items oid =
      B.filterMap (fun oi => (items.find? (fun it => it.id == oi.item_id)).map (fun it => (oi, it))) := by
  unfold orderItemRows
  rw [List.filter_eq_self.mpr (fun oi hoi => by simpa using h oi hoi)]

theorem restore_deltas_of_all (items2 : List Item) :
    ∀ (ois : List OrderItem),
      (∀ oi ∈ ois, ∃ it2, items2.find? (fun x => x.id == oi.item_id) = some it2 ∧ it2.id = oi.item_id) →
      ((ois.filterMap (fun oi => (items2.find? (fun it => it.id == oi.item_id)).map (fun it => (oi, it)))).map
          (fun rc => (rc.2.id, rc.1.quantity)))
        = ois.map (fun oi => (oi.item_id, oi.quantity)) := by
  intro ois
  induction ois with
  | nil => intro _; rfl
  | cons oi t ih =>
    intro hall
    obtain ⟨it2, hfind, hid⟩ := hall oi (List.mem_cons_self _ _)
    rw [List.filterMap_cons, hfind]
    simp only [Option.map_some', List.map_cons]
    rw [ih (fun x hx => hall x (List.mem_cons_of_mem _ hx))]
    simp [hid]

/-! ### Inversion lemmas for successful confirm / cancel calls -/

theorem confirm_success_components
    (db : DB) (user : UserCtx) (intent : PaymentIntent) (payload : ConfirmPaymentRequest)
    (db1 : DB) (resp : ConfirmPaymentResponse)
    (h : confirm_payment db user intent payload = (db1, .ok resp)) :
    resp.orderId = db.nextOrderId ∧
    db1.items = applyDeltas
      ((cartRows db.cartItems db.items user.id).map (fun r => (r.2.id, -r.1.quantity))) db.items ∧
    db1.orders = db.orders ++ [mkNewOrder db.nextOrderId user intent payload] ∧
    db1.orderItems = db.orderItems ++ (cartRows db.cartItems db.items user.id).map
      (fun r => ({ order_id := db.nextOrderId, item_id := r.2.id, quantity := r.1.quantity } : OrderItem)) := by
  simp only [confirm_payment, mk_resp_wrong_kw, mk_resp_right_kw] at h
  split at h
  · simp at h
  split at h
  · simp at h
  split at h
  · simp at h
  split at h
  · simp at h
  split at h
  · simp at h
  rw [Prod.mk.injEq] at h
  obtain ⟨hdb1, hresp⟩ := h
  injection hresp with hresp
  subst hresp
  subst hdb1
  refine ⟨rfl, ?_, ?_, ?_⟩
  · simp only [processRows_items]
  · simp only [processRows_orders]
  · simp only [processRows_orderItems]

theorem cancel_order_items
    (db : DB) (order_id : Nat) (user : UserCtx) (now : Nat) (order : Order)
    (db2 : DB) (out : OrderOut)
    (hfind : db.orders.find? (fun o => o.id == order_id && o.user_id == user.id) = some order)
    (h : cancel_order db order_id user now = (db2, .ok out)) :
    db2.items = restoreStock (orderItemRows db.orderItems db.items order.id) db.items := by
  simp only [cancel_order, hfind] at h
  split at h
  · simp at h
  · rw [Prod.mk.injEq] at h
    rw [← h.1]

/-! ### Claim C7 — the confirm/cancel round trip on inventory -/

/-- Claim C7: round trip — for every database (with the autoincrement
freshness invariants of the orders and order_items tables), a successful
`confirm_payment` followed by a successful `cancel_order` of the resulting
order restores the items table to exactly its state before the confirmation:
the cancel increments each item by exactly the OrderLine quantity the confirm
decremented. -/
theorem confirm_then_cancel_restores_stock
    (db : DB) (user : UserCtx) (intent : PaymentIntent) (payload : ConfirmPaymentRequest)
    (now : Nat) (db1 db2 : DB) (resp : ConfirmPaymentResponse) (out : OrderOut)
    (hfreshO : ∀ o ∈ db.orders, o.id ≠ db.nextOrderId)
    (hfreshOI : ∀ oi ∈ db.orderItems, oi.order_id ≠ db.nextOrderId)
    (h1 : confirm_payment db user intent payload = (db1, .ok resp))
    (h2 : cancel_order db1 resp.orderId user now = (db2, .ok out)) :
    db2.items = db.items := by
  obtain ⟨hresp, hitems1, horders1, hoi1⟩ :=
    confirm_success_components db user intent payload db1 resp h1
  have hnone : db.orders.find? (fun o => o.id == db.nextOrderId && o.user_id == user.id) = none := by
    apply List.find?_eq_none.mpr
    intro o ho
    simp [hfreshO o ho]
  have hfind : db1.orders.find? (fun o => o.id == resp.orderId && o.user_id == user.id)
      = some (mkNewOrder db.nextOrderId user intent payload) := by
    rw [horders1, hresp, find?_append_of_none hnone,
      List.find?_cons_of_pos _ (by simp [mkNewOrder])]
  have hitems2 := cancel_order_items db1 resp.orderId user now
    (mkNewOrder db.nextOrderId user intent payload) db2 out hfind h2
  have hmkid : (mkNewOrder db.nextOrderId user intent payload).id = db.nextOrderId := rfl
  rw [hmkid] at hitems2
  rw [hitems2, hoi1, hitems1]
  rw [orderItemRows_append_fresh hfreshOI]
  rw [orderItemRows_all (by
    intro oi hoi
    obtain ⟨r, hr, rfl⟩ := List.mem_map.mp hoi
    rfl)]
  rw [restoreStock_eq_applyDeltas]
  have hmemAll : ∀ oi ∈ (cartRows db.cartItems db.items user.id).map
      (fun r => ({ order_id := db.nextOrderId, item_id := r.2.id, quantity := r.1.quantity } : OrderItem)),
      ∃ it2, (applyDeltas
          ((cartRows db.cartItems db.items user.id).map (fun r => (r.2.id, -r.1.quantity)))
          db.items).find? (fun x => x.id == oi.item_id) = some it2 ∧ it2.id = oi.item_id := by
    intro oi hoi
    obtain ⟨r, hr, rfl⟩ := List.mem_map.mp hoi
    have hf0 : db.items.find? (fun x => x.id == r.1.item_id) = some r.2 := cartRows_mem hr
    have hid : r.2.id = r.1.item_id := find?_some_id hf0
    have hf1 : db.items.find? (fun x => x.id == r.2.id) = some r.2 := by rw [hid]; exact hf0
    exact find?_applyDeltas r.2.id _ db.items r.2 hf1
  rw [restore_deltas_of_all _ _ hmemAll]
  rw [List.map_map]
  have hfuneq : ((fun oi => (oi.item_id, oi.quantity)) ∘
      (fun r => ({ order_id := db.nextOrderId, item_id := r.2.id, quantity := r.1.quantity } : OrderItem)))
      = (fun (r : CartItem × Item) => (r.2.id, r.1.quantity)) := by
    funext r
    rfl
  rw [hfuneq]
  have hneg : (cartRows db.cartItems db.items user.id).map (fun r => (r.2.id, -r.1.quantity))
      = ((cartRows db.cartItems db.items user.id).map (fun r => (r.2.id, r.1.quantity))).map
          (fun d => (d.1, -d.2)) := by
    rw [List.map_map]
    rfl
  rw [hneg]
  exact applyDeltas_roundtrip _ _

def itemRT : Item := { id := 30, name := "RT", price_cents := 250, weight_oz := 10, stock_qty := 7 }

def userRT : UserCtx := { id := 14, email := "u14", stripe_customer_id := "cus_14" }

def intentRT : PaymentIntent := { id := "pi_rt", customer := "cus_14", status := "succeeded" }

def payloadRT : ConfirmPaymentRequest := { displayAddress := "RT", latitude := 0, longitude := 0 }

def dbRT : DB :=
  { items := [itemRT]
    cartItems := [{ id := 7, quantity := 2, item_id := 30, user_id := 14 }]
    orders := [], orderItems := [], auditLogs := [], nextOrderId := 1 }

/-- Witness for C7: confirming a cart of 2 units of item 30 (stock 7 → 5)
and then cancelling order 1 restores the items table to its initial state. -/
theorem confirm_then_cancel_restores_stock_witness :
    (cancel_order (confirm_payment dbRT userRT intentRT payloadRT).1 1 userRT 50).1.items
      = dbRT.items :=
  confirm_then_cancel_restores_stock dbRT userRT intentRT payloadRT 50 _ _ _ _
    (by simp [dbRT]) (by simp [dbRT]) rfl rfl

end Grocery
